import Mathlib

/-!
Verification of the backend aggregation/caching/resampling layer of the
Weather-Forecast repository (Backend `server.js`, the variant with the
`/api/marine` endpoint).

Conventions of the shallow embedding:
* JS numbers that carry data values are modelled as exact rationals (`ℚ`);
  timestamps in milliseconds are modelled as integers (`ℤ`).
* A JS value that is `null` or `undefined` where a number is expected is
  modelled as `none : Option ℚ`.
* `Math.floor(a / b)` on integers is `Int.fdiv` (floor division);
  `Math.round` is Mathlib's `round` (both are `⌊x + 1/2⌋`).
-/

/-- One hourly sample of the marine interpolation path (Path B).
Mirrors the objects built at `points = times.map((t, i) => ({ts, wave, wind,
sw, period, swell}))` in `/api/marine`: each field is `Number(x)` when the
hourly array holds a non-null entry at this index and `null` otherwise. -/
structure Point where
  ts : ℤ
  wave : Option ℚ
  wind : Option ℚ
  sw : Option ℚ
  period : Option ℚ
  swell : Option ℚ
deriving DecidableEq, Repr

/-- Placeholder for out-of-range indexing (`points[i]` with `i` out of range
is `undefined` in JS; the code never reads fields of such a value on the
paths modelled here, so the placeholder is irrelevant to the theorems). -/
def defaultPoint : Point := ⟨0, none, none, none, none, none⟩

/-- Result object of the `interp` helper in `/api/marine`.  The source
returns object literals of the shape `{ wave, wind, sw }`; reading the
properties `period` and `swell` of such an object yields `undefined`, which
the embedding records as the (always-`none`) fields `period` and `swell`. -/
structure InterpResult where
  wave : Option ℚ
  wind : Option ℚ
  sw : Option ℚ
  period : Option ℚ
  swell : Option ℚ
deriving DecidableEq, Repr

/-- The `mix` closure of `interp`:
`(aVal == null || bVal == null) ? (aVal != null ? aVal : bVal)
 : (aVal + (bVal - aVal) * frac)`. -/
def mix (frac : ℚ) : Option ℚ → Option ℚ → Option ℚ
  | none, b => b
  | some a, none => some a
  | some a, some b => some (a + (b - a) * frac)

/-- The scan `let i = 0; while (i < points.length - 1 && points[i+1].ts < ts) i++`
of `interp`, returning the final value of `i`. -/
def bracketIdx : List Point → ℤ → ℕ
  | [], _ => 0
  | [_], _ => 0
  | _ :: q :: rest, ts => if q.ts < ts then bracketIdx (q :: rest) ts + 1 else 0

/-- `points[points.length - 1]` (the code only uses it when the list is
nonempty, after the explicit `points.length === 0` early return). -/
def lastP (points : List Point) : Point := points.getD (points.length - 1) defaultPoint

/-- The `interp(ts)` helper of `/api/marine` (hourly → 15-minute path).
Faithful translation of:
```
if (points.length === 0) return { wave: null, wind: null, sw: null }
if (ts <= points[0].ts) return { wave: points[0].wave, ... }
if (ts >= points[points.length-1].ts) return { wave: points[last].wave, ... }
let i = 0
while (i < points.length - 1 && points[i+1].ts < ts) i++
const a = points[i]; const b = points[i+1]
if (!a || !b || a.ts === b.ts) return { wave: a.wave, ... }
const frac = (ts - a.ts) / (b.ts - a.ts)
return { wave: mix(a.wave, b.wave), wind: mix(a.wind, b.wind), sw: mix(a.sw, b.sw) }
```
All returned literals omit the `period`/`swell` keys, so those fields are
`none` in every case. -/
def interp (points : List Point) (ts : ℤ) : InterpResult :=
  if points.length = 0 then ⟨none, none, none, none, none⟩
  else
    let p0 := points.headD defaultPoint
    if ts ≤ p0.ts then ⟨p0.wave, p0.wind, p0.sw, none, none⟩
    else
      let pl := lastP points
      if pl.ts ≤ ts then ⟨pl.wave, pl.wind, pl.sw, none, none⟩
      else
        let a := points.getD (bracketIdx points ts) defaultPoint
        let b := points.getD (bracketIdx points ts + 1) defaultPoint
        if a.ts = b.ts then ⟨a.wave, a.wind, a.sw, none, none⟩
        else
          let frac : ℚ := ((ts : ℚ) - (a.ts : ℚ)) / ((b.ts : ℚ) - (a.ts : ℚ))
          ⟨mix frac a.wave b.wave, mix frac a.wind b.wind, mix frac a.sw b.sw, none, none⟩

/-- The two-point series of the spec's concrete interpolation test:
`a.value = 10` at `t = 0`, `b.value = 20` at `t = 60 min`. -/
def c1pts : List Point :=
  [⟨0, some 10, some 10, some 10, none, none⟩,
   ⟨3600000, some 20, some 20, some 20, none, none⟩]

example : (interp c1pts 900000).wave = some (25/2) := by
  norm_num [interp, c1pts, bracketIdx, lastP, defaultPoint, mix]

example : bracketIdx c1pts 900000 = 0 := by decide

theorem lastP_cons_cons (p q : Point) (rest : List Point) :
    lastP (p :: q :: rest) = lastP (q :: rest) := by
  simp [lastP, List.getD_cons_succ]

/-- The scan of `interp` really finds a bracketing pair: if `ts` lies strictly
between the first and the last timestamp, the index `i` it stops at satisfies
`i + 1 < points.length`, `points[i].ts < ts` and `ts ≤ points[i+1].ts`. -/
theorem bracketIdx_bracket (points : List Point) (ts : ℤ)
    (h1 : (points.headD defaultPoint).ts < ts)
    (h2 : ts < (lastP points).ts) :
    bracketIdx points ts + 1 < points.length ∧
    (points.getD (bracketIdx points ts) defaultPoint).ts < ts ∧
    ts ≤ (points.getD (bracketIdx points ts + 1) defaultPoint).ts := by
  induction points with
  | nil => simp [lastP, defaultPoint] at h1 h2; omega
  | cons p tail ih =>
    match tail with
    | [] =>
      simp [lastP, defaultPoint] at h1 h2
      omega
    | q :: rest =>
      rw [lastP_cons_cons] at h2
      by_cases hq : q.ts < ts
      · have spec := ih (by simpa using hq) h2
        rw [bracketIdx, if_pos hq]
        refine ⟨by simpa using spec.1, ?_, ?_⟩
        · simpa [List.getD_cons_succ] using spec.2.1
        · simpa [List.getD_cons_succ] using spec.2.2
      · rw [bracketIdx, if_neg hq]
        refine ⟨by simp, ?_, ?_⟩
        · simpa using h1
        · simpa using not_lt.mp hq

/-- `mix` implements exactly the three-case missing-value policy. -/
theorem mix_eq_policy (frac : ℚ) (x y : Option ℚ) :
    mix frac x y = (match x, y with
      | none, none => none
      | some v, none => some v
      | none, some w => some w
      | some v, some w => some (v + (w - v) * frac)) := by
  cases x <;> cases y <;> rfl

/-- On an interior timestamp whose bracketing pair has distinct timestamps,
`interp` returns the per-variable `mix` of the bracketing pair. -/
theorem interp_interior (points : List Point) (ts : ℤ)
    (h1 : (points.headD defaultPoint).ts < ts)
    (h2 : ts < (lastP points).ts)
    (hab : (points.getD (bracketIdx points ts) defaultPoint).ts ≠
           (points.getD (bracketIdx points ts + 1) defaultPoint).ts) :
    interp points ts =
      (let a := points.getD (bracketIdx points ts) defaultPoint
       let b := points.getD (bracketIdx points ts + 1) defaultPoint
       let frac : ℚ := ((ts : ℚ) - (a.ts : ℚ)) / ((b.ts : ℚ) - (a.ts : ℚ))
       ⟨mix frac a.wave b.wave, mix frac a.wind b.wind, mix frac a.sw b.sw, none, none⟩) := by
  have hlen := (bracketIdx_bracket points ts h1 h2).1
  have hne : ¬ points.length = 0 := by omega
  simp only [interp, if_neg hne, if_neg (not_le.mpr h1), if_neg (not_le.mpr h2), if_neg hab]

/-- C1: in the marine hourly-to-15-minute interpolation path, for every
interior grid timestamp `ts` the pair `(a, b)` the scan stops at brackets
`ts` (`a.ts ≤ ts ≤ b.ts`), and when `a.ts ≠ b.ts` each interpolated variable
follows the missing-value policy: exactly one side absent → the present
value; both absent → absent; both present → `a + (b - a) * frac` with
`frac = (ts - a.ts) / (b.ts - a.ts)`.  In particular `a.value = 10` at
`t = 0` and `b.value = 20` at `t = 60 min` yield exactly `12.5` at
`t = 15 min`. -/
theorem C1_interior_interpolation :
    (∀ (points : List Point) (ts : ℤ),
      (points.headD defaultPoint).ts < ts →
      ts < (lastP points).ts →
      (let a := points.getD (bracketIdx points ts) defaultPoint
       let b := points.getD (bracketIdx points ts + 1) defaultPoint
       a.ts ≤ ts ∧ ts ≤ b.ts ∧
       (a.ts ≠ b.ts →
         (let frac : ℚ := ((ts : ℚ) - (a.ts : ℚ)) / ((b.ts : ℚ) - (a.ts : ℚ))
          interp points ts =
            ⟨(match a.wave, b.wave with
              | none, none => none
              | some v, none => some v
              | none, some w => some w
              | some v, some w => some (v + (w - v) * frac)),
             (match a.wind, b.wind with
              | none, none => none
              | some v, none => some v
              | none, some w => some w
              | some v, some w => some (v + (w - v) * frac)),
             (match a.sw, b.sw with
              | none, none => none
              | some v, none => some v
              | none, some w => some w
              | some v, some w => some (v + (w - v) * frac)), none, none⟩)))) ∧
    (interp c1pts 900000).wave = some (25 / 2) := by
  constructor
  · intro points ts h1 h2
    obtain ⟨hlen, ha, hb⟩ := bracketIdx_bracket points ts h1 h2
    refine ⟨le_of_lt ha, hb, fun hab => ?_⟩
    rw [interp_interior points ts h1 h2 hab]
    simp only [InterpResult.mk.injEq]
    exact ⟨mix_eq_policy _ _ _, mix_eq_policy _ _ _, mix_eq_policy _ _ _, trivial, trivial⟩
  · norm_num [interp, c1pts, bracketIdx, lastP, defaultPoint, mix]

/-- Witness for C1: the hypotheses hold at the spec's concrete two-point
series, and instantiating the theorem there yields exactly `12.5` for the
wave variable at `t = 15 min`. -/
theorem C1_interior_interpolation_w :
    (c1pts.headD defaultPoint).ts < 900000 ∧ (900000 : ℤ) < (lastP c1pts).ts ∧
    (interp c1pts 900000).wave = some (25 / 2) := by
  refine ⟨by decide, by decide, ?_⟩
  have h := C1_interior_interpolation.1 c1pts 900000 (by decide) (by decide)
  have h3 := h.2.2 (by decide)
  rw [h3]
  norm_num [c1pts, bracketIdx, defaultPoint]

/-- When `ts` is at or before the first point, `interp` clamps to the first
point's `wave`/`wind`/`sw` values. -/
theorem interp_clamp_lo (points : List Point) (ts : ℤ)
    (hne : points.length ≠ 0) (h : ts ≤ (points.headD defaultPoint).ts) :
    interp points ts =
      ⟨(points.headD defaultPoint).wave, (points.headD defaultPoint).wind,
       (points.headD defaultPoint).sw, none, none⟩ := by
  simp only [interp, if_neg hne, if_pos h]

/-- When `ts` is at or after the last point (and past the first), `interp`
clamps to the last point's `wave`/`wind`/`sw` values. -/
theorem interp_clamp_hi (points : List Point) (ts : ℤ)
    (hne : points.length ≠ 0) (hlo : (points.headD defaultPoint).ts < ts)
    (hhi : (lastP points).ts ≤ ts) :
    interp points ts =
      ⟨(lastP points).wave, (lastP points).wind, (lastP points).sw, none, none⟩ := by
  simp only [interp, if_neg hne, if_neg (not_le.mpr hlo), if_pos hhi]

/-- The `series15` object of `/api/marine`.  `time` keeps the integer
timestamps of the pushed `new Date(k).toISOString()` strings (the ISO
conversion is strictly monotone and injective, so order statements transfer);
the five variable arrays are aligned by index. -/
structure Series15 where
  time : List ℤ
  wave_height : List (Option ℚ)
  windspeed_10m : List (Option ℚ)
  shortwave_radiation : List (Option ℚ)
  significant_wave_period : List (Option ℚ)
  swell_height : List (Option ℚ)
deriving DecidableEq, Repr

/-- Number of iterations of `for (let ts = startTs; ts <= endTs; ts += stepMs)`
for a positive step. -/
def gridCount (startTs endTs stepMs : ℤ) : ℕ :=
  if startTs ≤ endTs then ((endTs - startTs).fdiv stepMs).toNat + 1 else 0

/-- The grid timestamps visited by that loop. -/
def grid (startTs endTs stepMs : ℤ) : List ℤ :=
  (List.range (gridCount startTs endTs stepMs)).map (fun k : ℕ => startTs + (k : ℤ) * stepMs)

/-- Path B of the `/api/marine` resampler: the hourly → 15-minute
interpolation loop.  For each grid timestamp the loop pushes
`v.wave, v.wind, v.sw, v.period, v.swell` where `v = interp(ts)` (the last
two property reads yield `undefined`, recorded as `none` by `interp`). -/
def pathB (points : List Point) (startTs endTs : ℤ) : Series15 :=
  let g := grid startTs endTs 900000
  { time := g
    wave_height := g.map fun ts => (interp points ts).wave
    windspeed_10m := g.map fun ts => (interp points ts).wind
    shortwave_radiation := g.map fun ts => (interp points ts).sw
    significant_wave_period := g.map fun ts => (interp points ts).period
    swell_height := g.map fun ts => (interp points ts).swell }

/-- A two-point hourly series whose `significant_wave_period` and
`swell_height` hourly values are present upstream. -/
def c4pts : List Point :=
  [⟨0, some 1, some 2, some 3, some 5, some 7⟩,
   ⟨3600000, some 10, some 20, some 30, some 50, some 70⟩]

example : (pathB c4pts (-900000) (-900000)).significant_wave_period = [none] := by decide
example : (c4pts.headD defaultPoint).period = some 5 := by decide

/-- C4 counterexample: at a grid timestamp before the first hourly point the
claim says every output variable equals the first point's value, but the
`significant_wave_period` entry pushed is `undefined` (`none`), not the first
point's present hourly value `5`. -/
theorem C4_counterexample :
    (pathB c4pts (-900000) (-900000)).significant_wave_period ≠
      [(c4pts.headD defaultPoint).period] ∧
    (c4pts.headD defaultPoint).period = some 5 ∧
    (pathB c4pts (-900000) (-900000)).significant_wave_period = [none] := by
  exact ⟨by decide, by decide, by decide⟩

/-- C4 (amended): outside the native point range, the three variables the
`interp` result carries (`wave_height`, `windspeed_10m`,
`shortwave_radiation`) clamp exactly to the nearest boundary point's values,
while `significant_wave_period` and `swell_height` are absent (`undefined`)
there, whatever the boundary point's hourly values were. -/
theorem C4_boundary_clamp (points : List Point) (ts : ℤ)
    (hne : points.length ≠ 0) :
    (ts ≤ (points.headD defaultPoint).ts →
      interp points ts =
        ⟨(points.headD defaultPoint).wave, (points.headD defaultPoint).wind,
         (points.headD defaultPoint).sw, none, none⟩) ∧
    ((points.headD defaultPoint).ts < ts → (lastP points).ts ≤ ts →
      interp points ts =
        ⟨(lastP points).wave, (lastP points).wind, (lastP points).sw, none, none⟩) :=
  ⟨fun h => interp_clamp_lo points ts hne h,
   fun hlo hhi => interp_clamp_hi points ts hne hlo hhi⟩

/-- Witness for C4 (amended): at `ts = -15 min` the clamp-low case applies to
the concrete two-point series, and at `ts = 2 h` the clamp-high case does. -/
theorem C4_boundary_clamp_w :
    c4pts.length ≠ 0 ∧
    ((-900000 : ℤ) ≤ (c4pts.headD defaultPoint).ts ∧
      interp c4pts (-900000) = ⟨some 1, some 2, some 3, none, none⟩) ∧
    ((c4pts.headD defaultPoint).ts < 7200000 ∧ (lastP c4pts).ts ≤ (7200000 : ℤ) ∧
      interp c4pts 7200000 = ⟨some 10, some 20, some 30, none, none⟩) := by
  refine ⟨by decide, ⟨by decide, ?_⟩, ⟨by decide, by decide, ?_⟩⟩
  · exact (C4_boundary_clamp c4pts (-900000) (by decide)).1 (by decide)
  · exact (C4_boundary_clamp c4pts 7200000 (by decide)).2 (by decide) (by decide)

/-- C10: the `interp` result never carries `significant_wave_period` or
`swell_height` (its literals omit those keys, so the property reads are
`undefined`), and consequently both output arrays of the interpolation path
consist entirely of absent entries, whatever hourly data upstream supplied. -/
theorem C10_period_swell_absent (points : List Point) (ts startTs endTs : ℤ) :
    (interp points ts).period = none ∧ (interp points ts).swell = none ∧
    (pathB points startTs endTs).significant_wave_period =
      List.replicate (pathB points startTs endTs).time.length none ∧
    (pathB points startTs endTs).swell_height =
      List.replicate (pathB points startTs endTs).time.length none := by
  have hper : ∀ u : ℤ, (interp points u).period = none := by
    intro u
    simp only [interp]
    split_ifs <;> rfl
  have hsw : ∀ u : ℤ, (interp points u).swell = none := by
    intro u
    simp only [interp]
    split_ifs <;> rfl
  refine ⟨hper ts, hsw ts, ?_, ?_⟩
  · simp only [pathB, List.length_map]
    rw [List.eq_replicate_iff]
    exact ⟨by simp, by simp [hper]⟩
  · simp only [pathB, List.length_map]
    rw [List.eq_replicate_iff]
    exact ⟨by simp, by simp [hsw]⟩

/-- One native minutely sample of Path A: the timestamp
`new Date(minutely.time[i]).getTime()` paired with
`minutely.shortwave_radiation[i]` (`none` when that entry is `null`,
`undefined`, or the array is missing/short). -/
structure MinSample where
  ts : ℤ
  sw : Option ℚ
deriving DecidableEq, Repr

/-- `Math.floor(t / stepMs) * stepMs` with `stepMs = 15 * 60 * 1000`. -/
def bucketKey (t : ℤ) : ℤ := t.fdiv 900000 * 900000

/-- The samples whose timestamp falls inside `[startTs, endTs]`
(`if (t < startTs || t > endTs) continue`). -/
def winFilter (samples : List MinSample) (startTs endTs : ℤ) : List MinSample :=
  samples.filter fun s => decide (startTs ≤ s.ts) && decide (s.ts ≤ endTs)

/-- `buckets[k].sum` after the aggregation loop: each sample in the bucket
contributes its `shortwave_radiation` value, with an absent value
contributing `0` (`(minutely.shortwave_radiation[i] != null) ? Number(...) : 0`). -/
def bucketSum (samples : List MinSample) (k : ℤ) : ℚ :=
  ((samples.filter fun s => decide (bucketKey s.ts = k)).map fun s => s.sw.getD 0).sum

/-- `buckets[k].count` after the aggregation loop: every sample in the bucket
increments the count, absent value or not. -/
def bucketCount (samples : List MinSample) (k : ℤ) : ℕ :=
  (samples.filter fun s => decide (bucketKey s.ts = k)).length

/-- Path A of the `/api/marine` resampler (native minutely data present and
coordinates in a supported region): group the in-window samples into
15-minute buckets, emit the occupied bucket keys in ascending numeric order
(`Object.keys(buckets).map(parseInt).sort((a,b) => a-b)`), and push the
bucket mean for `shortwave_radiation` (`b.count ? b.sum / b.count : null`).
The other four variable arrays of the `series15` literal are initialized
empty and never pushed to on this path. -/
def pathA (samples : List MinSample) (startTs endTs : ℤ) : Series15 :=
  let inWin := winFilter samples startTs endTs
  let keys := ((inWin.map fun s => bucketKey s.ts).dedup).insertionSort (· ≤ ·)
  { time := keys
    wave_height := []
    windspeed_10m := []
    shortwave_radiation := keys.map fun k =>
      if bucketCount inWin k = 0 then none
      else some (bucketSum inWin k / (bucketCount inWin k : ℚ))
    significant_wave_period := []
    swell_height := [] }

example :
    (pathA [⟨100, some 4⟩, ⟨200, none⟩, ⟨900100, some 9⟩] 0 1000000).time
      = [0, 900000] := by decide
example :
    (pathA [⟨100, some 4⟩, ⟨200, none⟩, ⟨900100, some 9⟩] 0 1000000).shortwave_radiation
      = [some 2, some 9] := by
  norm_num [pathA, winFilter, bucketSum, bucketCount, bucketKey, List.filter, Int.fdiv]
  exact fun h => absurd h (by simp)

/-- The bucket keys emitted by Path A are strictly increasing: `Object.keys`
yields each occupied bucket key once, and the numeric sort orders them. -/
theorem pathA_time_sorted (samples : List MinSample) (startTs endTs : ℤ) :
    List.Sorted (· < ·) (pathA samples startTs endTs).time := by
  simp only [pathA]
  exact (List.sorted_insertionSort _ _).lt_of_le
    ((List.perm_insertionSort _ _).nodup_iff.mpr
      (((winFilter samples startTs endTs).map fun s => bucketKey s.ts).nodup_dedup))

/-- C2: in the marine bucket-aggregation path, the output bucket keys are
exactly the keys `floor(t / stepMs) * stepMs` of native samples with
`startTs ≤ t ≤ endTs` (a bucket appears iff it received at least one sample),
they are emitted in strictly ascending order, and each output
`shortwave_radiation` entry is the bucket's sum divided by its sample count,
where an absent sample value contributes `0` to the sum but still increments
the count (see `bucketSum` and `bucketCount`). -/
theorem C2_bucket_aggregation (samples : List MinSample) (startTs endTs : ℤ) :
    List.Sorted (· < ·) (pathA samples startTs endTs).time ∧
    (∀ k : ℤ, k ∈ (pathA samples startTs endTs).time ↔
      ∃ s ∈ samples, startTs ≤ s.ts ∧ s.ts ≤ endTs ∧ bucketKey s.ts = k) ∧
    (pathA samples startTs endTs).shortwave_radiation =
      (pathA samples startTs endTs).time.map (fun k =>
        some (bucketSum (winFilter samples startTs endTs) k /
              (bucketCount (winFilter samples startTs endTs) k : ℚ))) := by
  simp only [pathA]
  set inWin := winFilter samples startTs endTs with hInWin
  set keys := ((inWin.map fun s => bucketKey s.ts).dedup).insertionSort (· ≤ ·) with hKeys
  have hmem : ∀ k : ℤ, k ∈ keys ↔ ∃ s ∈ inWin, bucketKey s.ts = k := by
    intro k
    rw [hKeys, List.mem_insertionSort, List.mem_dedup, List.mem_map]
  have hwin : ∀ s : MinSample, s ∈ inWin ↔ s ∈ samples ∧ startTs ≤ s.ts ∧ s.ts ≤ endTs := by
    intro s
    rw [hInWin, winFilter, List.mem_filter]
    simp [Bool.and_eq_true, decide_eq_true_eq, and_assoc]
  have hcount : ∀ k : ℤ, k ∈ keys → bucketCount inWin k ≠ 0 := by
    intro k hk
    obtain ⟨s, hs, hsk⟩ := (hmem k).mp hk
    have : s ∈ inWin.filter fun s => decide (bucketKey s.ts = k) :=
      List.mem_filter.mpr ⟨hs, by simp [hsk]⟩
    have hpos : 0 < (inWin.filter fun s => decide (bucketKey s.ts = k)).length :=
      List.length_pos.mpr (List.ne_nil_of_mem this)
    simp only [bucketCount]
    omega
  refine ⟨pathA_time_sorted samples startTs endTs, ?_, ?_⟩
  · intro k
    rw [hmem k]
    constructor
    · rintro ⟨s, hs, hk⟩
      obtain ⟨h1, h2, h3⟩ := (hwin s).mp hs
      exact ⟨s, h1, h2, h3, hk⟩
    · rintro ⟨s, h1, h2, h3, hk⟩
      exact ⟨s, (hwin s).mpr ⟨h1, h2, h3⟩, hk⟩
  · refine List.map_congr_left ?_
    intro k hk
    rw [if_neg (hcount k hk)]

/-- The grid timestamps of the interpolation loop are strictly increasing. -/
theorem grid_sorted (startTs endTs stepMs : ℤ) (hstep : 0 < stepMs) :
    List.Sorted (· < ·) (grid startTs endTs stepMs) := by
  rw [grid, List.Sorted, List.pairwise_map]
  refine (List.pairwise_lt_range _).imp ?_
  intro a b hab
  have h : (a : ℤ) < b := by exact_mod_cast hab
  nlinarith

/-- C6 counterexample: on the bucket-aggregation path with a single in-window
native sample, `time` has one entry but `wave_height` stays empty, so the
claimed equal-length invariant fails. -/
theorem C6_counterexample :
    (pathA [⟨0, some 5⟩] 0 0).wave_height.length ≠ (pathA [⟨0, some 5⟩] 0 0).time.length ∧
    (pathA [⟨0, some 5⟩] 0 0).time.length = 1 ∧
    (pathA [⟨0, some 5⟩] 0 0).wave_height = [] := by
  exact ⟨by decide, by decide, by decide⟩

/-- C6 (amended): in the interpolation path every variable array's length
equals `times.length` and the output timestamps strictly increase; in the
bucket-aggregation path this holds for `shortwave_radiation` (and the
timestamps strictly increase), but the four remaining variable arrays are
left empty, never filled. -/
theorem C6_alignment (points : List Point) (samples : List MinSample)
    (startTs endTs aTs bTs : ℤ) :
    ((pathB points startTs endTs).wave_height.length
        = (pathB points startTs endTs).time.length ∧
     (pathB points startTs endTs).windspeed_10m.length
        = (pathB points startTs endTs).time.length ∧
     (pathB points startTs endTs).shortwave_radiation.length
        = (pathB points startTs endTs).time.length ∧
     (pathB points startTs endTs).significant_wave_period.length
        = (pathB points startTs endTs).time.length ∧
     (pathB points startTs endTs).swell_height.length
        = (pathB points startTs endTs).time.length ∧
     List.Sorted (· < ·) (pathB points startTs endTs).time) ∧
    ((pathA samples aTs bTs).shortwave_radiation.length
        = (pathA samples aTs bTs).time.length ∧
     List.Sorted (· < ·) (pathA samples aTs bTs).time ∧
     (pathA samples aTs bTs).wave_height = [] ∧
     (pathA samples aTs bTs).windspeed_10m = [] ∧
     (pathA samples aTs bTs).significant_wave_period = [] ∧
     (pathA samples aTs bTs).swell_height = []) := by
  refine ⟨⟨?_, ?_, ?_, ?_, ?_, ?_⟩, ⟨?_, ?_, rfl, rfl, rfl, rfl⟩⟩
  · simp [pathB]
  · simp [pathB]
  · simp [pathB]
  · simp [pathB]
  · simp [pathB]
  · exact grid_sorted startTs endTs 900000 (by norm_num)
  · simp [pathA]
  · exact pathA_time_sorted samples aTs bTs

/-- The `inSupportedRegion(lat, lon)` predicate of `/api/marine`: a North
America box (lat 15..75, lon -170..-50) or a Central Europe box
(lat 35..70, lon -10..40). -/
def inSupportedRegion (lat lon : ℚ) : Bool :=
  (decide (15 ≤ lat) && decide (lat ≤ 75) && decide (-170 ≤ lon) && decide (lon ≤ -50)) ||
  (decide (35 ≤ lat) && decide (lat ≤ 70) && decide (-10 ≤ lon) && decide (lon ≤ 40))

/-- The parts of the upstream JSON body that the marine resampler reads.
`minutely` is `some` when `json.minutely` exists and has at least one key
(the `hasMinutely` check); its samples pre-zip `minutely.time[i]` with
`minutely.shortwave_radiation[i]`.  `hourly` pre-zips the six hourly arrays
into `Point`s as the `points` construction does. -/
structure MarineUpstream where
  minutely : Option (List MinSample)
  hourly : List Point
deriving DecidableEq, Repr

/-- `json.minutely && Object.keys(json.minutely).length > 0`. -/
def hasMinutely (j : MarineUpstream) : Bool := j.minutely.isSome

/-- The minutely samples (only read when `hasMinutely`). -/
def minutelySamples (j : MarineUpstream) : List MinSample := j.minutely.getD []

/-- The `series15` value computed by `/api/marine`: Path A when upstream
minutely data exists and the coordinates are in a supported region
(note: this guard does not consult the window size), otherwise Path B when
`wantMinutely15 = (forecastSteps + pastSteps) > 0`, otherwise the variable
keeps its initial `null`.  `startTs = now - pastSteps*stepMs`,
`endTs = now + forecastSteps*stepMs`, `stepMs = 15*60*1000`. -/
def marineSeries15 (lat lon : ℚ) (j : MarineUpstream) (now : ℤ)
    (pastSteps forecastSteps : ℕ) : Option Series15 :=
  let startTs := now - (pastSteps : ℤ) * 900000
  let endTs := now + (forecastSteps : ℤ) * 900000
  if hasMinutely j && inSupportedRegion lat lon then
    some (pathA (minutelySamples j) startTs endTs)
  else if 0 < forecastSteps + pastSteps then
    some (pathB j.hourly startTs endTs)
  else none

/-- How a JS object property appears after `res.json` serialization: the key
can be missing from the object, present with value `null`, or present with a
value. -/
inductive JsonField (α : Type) where
  | absent
  | null
  | val (a : α)
deriving DecidableEq, Repr

/-- The `series15` property of the `/api/marine` response payload.  The
payload object literal always contains the key `series15`, whose JS value is
the (possibly still `null`) `series15` variable, so the `absent` shape is
never produced. -/
def seriesFieldOf : Option Series15 → JsonField Series15
  | none => JsonField.null
  | some s => JsonField.val s

/-- Boolean test for the `absent` shape. -/
def absentB {α : Type} : JsonField α → Bool
  | JsonField.absent => true
  | _ => false

/-- Upstream body with one native minutely sample at `t = 1800000` and no
hourly data. -/
def c5json : MarineUpstream := ⟨some [⟨1800000, some 100⟩], []⟩

/-- C5 counterexample: for a zero window (`pastSteps = forecastSteps = 0`)
at in-region coordinates with upstream minutely data, the resampler is NOT
skipped — the bucket-aggregation path runs and emits one bucket — and the
series field is present in the response, not absent. -/
theorem C5_counterexample :
    (marineSeries15 50 0 c5json 1800000 0 0).isSome = true ∧
    Option.map Series15.time (marineSeries15 50 0 c5json 1800000 0 0) = some [1800000] ∧
    absentB (seriesFieldOf (marineSeries15 50 0 c5json 1800000 0 0)) = false := by
  exact ⟨by decide, by decide, by decide⟩

/-- C5 (amended): with `pastSteps = 0` and `forecastSteps = 0` the
interpolation path never runs — the result is the bucket-aggregation output
over the degenerate window `[now, now]` when upstream minutely data exists
and the coordinates are in a supported region, and `null` otherwise — and
the `series15` field is always present in the response (as `null` when no
path ran), never absent. -/
theorem C5_zero_window (lat lon : ℚ) (j : MarineUpstream) (now : ℤ) :
    marineSeries15 lat lon j now 0 0
      = (if hasMinutely j && inSupportedRegion lat lon
         then some (pathA (minutelySamples j) now now) else none) ∧
    absentB (seriesFieldOf (marineSeries15 lat lon j now 0 0)) = false := by
  have h1 : marineSeries15 lat lon j now 0 0
      = (if hasMinutely j && inSupportedRegion lat lon
         then some (pathA (minutelySamples j) now now) else none) := by
    simp [marineSeries15]
  refine ⟨h1, ?_⟩
  rw [h1]
  by_cases hc : (hasMinutely j && inSupportedRegion lat lon) = true
  · rw [if_pos hc]; rfl
  · rw [if_neg hc]; rfl

/-- Outcome of one `fetchWithTimeout` call inside `fetchWithRetries`:
either a resolved response with an HTTP status, or a thrown error
(network failure / abort). -/
inductive FetchOutcome where
  | ok (status : ℕ)
  | netErr
deriving DecidableEq, Repr

/-- The error kept in `lastErr`. -/
inductive ErrKind where
  | upstream (status : ℕ)
  | net
  | unknown
deriving DecidableEq, Repr

/-- What `fetchWithRetries` produces: a returned response or a thrown error. -/
inductive RetryResult where
  | resp (status : ℕ)
  | err (e : ErrKind)
deriving DecidableEq, Repr

/-- Observable trace of one `fetchWithRetries` run: the result, the number
of `fetchWithTimeout` calls made, and the sleeps performed (ms, in order). -/
structure RetryOut where
  result : RetryResult
  attempts : ℕ
  delays : List ℤ
deriving DecidableEq, Repr

/-- `throw lastErr || new Error('fetchWithRetries: unknown error')`. -/
def throwOf : Option ErrKind → RetryResult
  | some e => RetryResult.err e
  | none => RetryResult.err ErrKind.unknown

/-- The jitter factor `0.75 + Math.random() * 0.5`, with `rand n` the value
`Math.random()` returned before the `n`-th retry. -/
def jitterOf (rand : ℕ → ℚ) (n : ℕ) : ℚ := 3/4 + rand n * (1/2)

/-- `Math.round(backoffBase * Math.pow(2, attempt - 1) * (0.75 + Math.random() * 0.5))`
with `attempt = n` at the delay site (the delay before the `n`-th retry,
1-indexed). -/
def delayOf (base : ℚ) (rand : ℕ → ℚ) (n : ℕ) : ℤ :=
  round (base * 2 ^ (n - 1) * jitterOf rand n)

/-- The `lastErr` recorded for a failed attempt:
`new Error('Upstream responded ' + status)` for a 5xx response, the caught
error for a throw. -/
def errKindOf : FetchOutcome → ErrKind
  | FetchOutcome.ok s => ErrKind.upstream s
  | FetchOutcome.netErr => ErrKind.net

/-- The `while (attempt <= retries)` loop of `fetchWithRetries`, with
`outcome n` the result of the fetch made when `attempt = n`.  The loop
counter is encoded by `fuel = retries + 1 - attempt`, so the loop-top check
`attempt <= retries` is `fuel ≠ 0` and the post-increment check
`attempt > retries` (break before sleeping) is `fuel - 1 = 0`.  A response
is returned iff `resp.ok || resp.status < 500`, i.e. iff `status < 500`. -/
def retryGo (outcome : ℕ → FetchOutcome) (rand : ℕ → ℚ) (base : ℚ) :
    ℕ → ℕ → Option ErrKind → RetryOut
  | 0, attempt, lastErr => ⟨throwOf lastErr, attempt, []⟩
  | fuel + 1, attempt, _ =>
    match outcome attempt with
    | FetchOutcome.ok s =>
      if s < 500 then ⟨RetryResult.resp s, attempt + 1, []⟩
      else
        if fuel = 0 then ⟨throwOf (some (ErrKind.upstream s)), attempt + 1, []⟩
        else
          let r := retryGo outcome rand base fuel (attempt + 1) (some (ErrKind.upstream s))
          ⟨r.result, r.attempts, delayOf base rand (attempt + 1) :: r.delays⟩
    | FetchOutcome.netErr =>
      if fuel = 0 then ⟨throwOf (some ErrKind.net), attempt + 1, []⟩
      else
        let r := retryGo outcome rand base fuel (attempt + 1) (some ErrKind.net)
        ⟨r.result, r.attempts, delayOf base rand (attempt + 1) :: r.delays⟩

/-- `fetchWithRetries(url, opts, timeout, retries, backoffBase)`: starts with
`attempt = 0`, `lastErr = null`; at most `retries + 1` fetches. -/
def fetchWithRetries (outcome : ℕ → FetchOutcome) (rand : ℕ → ℚ)
    (retries : ℕ) (base : ℚ) : RetryOut :=
  retryGo outcome rand base (retries + 1) 0 none

/-- An attempt outcome is retryable iff it threw or its status is ≥ 500. -/
def retryable : FetchOutcome → Prop
  | FetchOutcome.ok s => 500 ≤ s
  | FetchOutcome.netErr => True

/-- Against an always-retryable upstream the loop performs one fetch per
unit of fuel, sleeps between consecutive fetches, and finally throws the
error of the last attempt. -/
theorem retryGo_all_fail (outcome : ℕ → FetchOutcome) (rand : ℕ → ℚ) (base : ℚ)
    (h : ∀ n, retryable (outcome n)) :
    ∀ (fuel attempt : ℕ) (lastErr : Option ErrKind),
      retryGo outcome rand base (fuel + 1) attempt lastErr =
        ⟨RetryResult.err (errKindOf (outcome (attempt + fuel))), attempt + fuel + 1,
         (List.range fuel).map fun k => delayOf base rand (attempt + k + 1)⟩ := by
  intro fuel
  induction fuel with
  | zero =>
    intro attempt lastErr
    cases houtcome : outcome attempt with
    | ok s =>
      have hs := h attempt
      rw [houtcome] at hs
      simp [retryGo, houtcome, errKindOf, throwOf, Nat.not_lt.mpr hs]
    | netErr => simp [retryGo, houtcome, errKindOf, throwOf]
  | succ f ih =>
    intro attempt lastErr
    have hrec :
        retryGo outcome rand base (f + 1) (attempt + 1) =
          fun _ : Option ErrKind =>
            (⟨RetryResult.err (errKindOf (outcome (attempt + 1 + f))), attempt + 1 + f + 1,
              (List.range f).map fun k => delayOf base rand (attempt + 1 + k + 1)⟩ : RetryOut) := by
      funext lastErr2
      exact ih (attempt + 1) lastErr2
    have hshift :
        delayOf base rand (attempt + 1) ::
            ((List.range f).map fun k => delayOf base rand (attempt + 1 + k + 1)) =
          (List.range (f + 1)).map fun k => delayOf base rand (attempt + k + 1) := by
      rw [List.range_succ_eq_map, List.map_cons, List.map_map]
      refine congrArg₂ _ (by norm_num) ?_
      refine List.map_congr_left ?_
      intro a _
      simp [Function.comp]
      ring_nf
    cases houtcome : outcome attempt with
    | ok s =>
      have hs := h attempt
      rw [houtcome] at hs
      rw [retryGo]
      simp only [houtcome, if_neg (Nat.not_lt.mpr hs), if_neg (Nat.succ_ne_zero f), hrec]
      congr 1 <;>
        first
          | exact hshift
          | omega
          | (have hidx : attempt + 1 + f = attempt + (f + 1) := by omega
             rw [hidx])
    | netErr =>
      rw [retryGo]
      simp only [houtcome, if_neg (Nat.succ_ne_zero f), hrec]
      congr 1 <;>
        first
          | exact hshift
          | omega
          | (have hidx : attempt + 1 + f = attempt + (f + 1) := by omega
             rw [hidx])

/-- An upstream that always fails at the network level. -/
def c3outcome : ℕ → FetchOutcome := fun _ => FetchOutcome.netErr

/-- An upstream whose first response is a 404 client error. -/
def c3outcome4 : ℕ → FetchOutcome := fun _ => FetchOutcome.ok 404

/-- A `Math.random()` trace returning `1/500` every time, so the jitter is
`0.751`, inside the claimed interval. -/
def c3rand : ℕ → ℚ := fun _ => 1/500

/-- C3 counterexample: with `backoffBaseMs = 300` and jitter `0.751` the
claimed delay is `300 × 2^0 × 0.751 = 225.3` ms, but the code sleeps
`Math.round(225.3) = 225` ms, so the delay does not equal
`backoffBaseMs × 2^(n-1) × jitter`. -/
theorem C3_counterexample :
    (fetchWithRetries c3outcome c3rand 1 300).delays = [225] ∧
    (300 : ℚ) * 2 ^ (1 - 1) * jitterOf c3rand 1 = 2253/10 ∧
    ((2253 : ℚ)/10 ≠ ((225 : ℤ) : ℚ)) ∧
    (3/4 : ℚ) ≤ jitterOf c3rand 1 ∧ jitterOf c3rand 1 ≤ 5/4 := by
  refine ⟨?_, by norm_num [jitterOf, c3rand], by norm_num,
    by norm_num [jitterOf, c3rand], by norm_num [jitterOf, c3rand]⟩
  have hd : delayOf 300 c3rand 1 = 225 := by
    rw [delayOf, round_eq]
    norm_num [jitterOf, c3rand]
  simp [fetchWithRetries, retryGo, c3outcome, hd]

/-- C3 (amended): `fetchWithRetries` returns immediately — one fetch, no
sleeps — any response whose status is below 500 (including all 4xx); against
an always-retryable upstream (network failure or status ≥ 500) it makes
exactly `maxRetries + 1` fetches and surfaces the last attempt's error,
sleeping before retry `n` (1-indexed) for
`Math.round(backoffBaseMs × 2^(n-1) × jitter)` ms with
`jitter = 0.75 + Math.random() × 0.5 ∈ [0.75, 1.25)`. -/
theorem C3_retry_behavior :
    (∀ (outcome : ℕ → FetchOutcome) (rand : ℕ → ℚ) (retries : ℕ) (base : ℚ) (s : ℕ),
      outcome 0 = FetchOutcome.ok s → s < 500 →
      fetchWithRetries outcome rand retries base = ⟨RetryResult.resp s, 1, []⟩) ∧
    (∀ (outcome : ℕ → FetchOutcome) (rand : ℕ → ℚ) (retries : ℕ) (base : ℚ),
      (∀ n, retryable (outcome n)) →
      fetchWithRetries outcome rand retries base =
        ⟨RetryResult.err (errKindOf (outcome retries)), retries + 1,
         (List.range retries).map fun k => delayOf base rand (k + 1)⟩) ∧
    (∀ (rand : ℕ → ℚ) (n : ℕ), 0 ≤ rand n → rand n < 1 →
      3/4 ≤ jitterOf rand n ∧ jitterOf rand n < 5/4) ∧
    (∀ (base : ℚ) (rand : ℕ → ℚ) (n : ℕ),
      delayOf base rand n = round (base * 2 ^ (n - 1) * jitterOf rand n)) := by
  refine ⟨?_, ?_, ?_, fun _ _ _ => rfl⟩
  · intro outcome rand retries base s h0 hs
    rw [fetchWithRetries, retryGo]
    simp [h0, hs]
  · intro outcome rand retries base h
    have := retryGo_all_fail outcome rand base h retries 0 none
    rw [fetchWithRetries, this]
    norm_num
  · intro rand n h0 h1
    constructor
    · rw [jitterOf]; nlinarith
    · rw [jitterOf]; nlinarith

/-- Witness for C3: a 404 response is returned after a single fetch with no
sleeps; the always-failing upstream with `maxRetries = 2` is fetched exactly
3 times and the network error surfaces, with one sleep per retry; and the
concrete jitter `0.751` lies in `[0.75, 1.25)`. -/
theorem C3_retry_behavior_w :
    c3outcome4 0 = FetchOutcome.ok 404 ∧ (404 : ℕ) < 500 ∧
    fetchWithRetries c3outcome4 c3rand 2 300 = ⟨RetryResult.resp 404, 1, []⟩ ∧
    (∀ n, retryable (c3outcome n)) ∧
    fetchWithRetries c3outcome c3rand 2 300 =
      ⟨RetryResult.err (errKindOf (c3outcome 2)), 3,
       (List.range 2).map fun k => delayOf 300 c3rand (k + 1)⟩ ∧
    (0 : ℚ) ≤ c3rand 5 ∧ c3rand 5 < 1 ∧
    (3/4 : ℚ) ≤ jitterOf c3rand 5 ∧ jitterOf c3rand 5 < 5/4 := by
  have hj := C3_retry_behavior.2.2.1 c3rand 5 (by norm_num [c3rand]) (by norm_num [c3rand])
  exact ⟨rfl, by norm_num,
    C3_retry_behavior.1 c3outcome4 c3rand 2 300 404 rfl (by norm_num),
    fun n => trivial,
    C3_retry_behavior.2.1 c3outcome c3rand 2 300 (fun n => trivial),
    by norm_num [c3rand], by norm_num [c3rand], hj.1, hj.2⟩

/-- A stored cache entry.  Modelled from the spec: the repository delegates
storage to the NodeCache dependency (not part of the repository source);
§3 specifies `CacheEntry = { key, value, expiresAt }` with the invariant
that a live read never returns a value whose `expiresAt` has passed. -/
structure CacheEntry (α : Type) where
  value : α
  expiresAt : ℤ
deriving DecidableEq, Repr

/-- Association-list lookup for the keyed store (newest binding first; a
`cacheSet` prepend therefore behaves as NodeCache's keyed overwrite for all
reads). -/
def cacheFind {κ α : Type} [DecidableEq κ] : List (κ × CacheEntry α) → κ → Option (CacheEntry α)
  | [], _ => none
  | (k', e) :: rest, k => if k' = k then some e else cacheFind rest k

/-- `cache.get(key)` at time `now` (ms).  Modelled from the spec: a hit
returns the stored value only while the entry is live; an expired entry
reads as absent. -/
def cacheGet {κ α : Type} [DecidableEq κ]
    (c : List (κ × CacheEntry α)) (now : ℤ) (k : κ) : Option α :=
  match cacheFind c k with
  | some e => if now ≤ e.expiresAt then some e.value else none
  | none => none

/-- `cache.set(key, value, ttlSeconds)` at time `now` (ms).  Modelled from
the spec: the entry expires `ttlSeconds` after the write. -/
def cacheSet {κ α : Type} [DecidableEq κ]
    (c : List (κ × CacheEntry α)) (now : ℤ) (k : κ) (v : α) (ttlSec : ℤ) :
    List (κ × CacheEntry α) :=
  (k, ⟨v, now + ttlSec * 1000⟩) :: c

/-- Forecast cache TTL: the NodeCache default `stdTTL: 60 * 10` used by the
argument-less `cache.set(cacheKey, payload)` of `/api/forecast`. -/
def forecastTTLsec : ℤ := 60 * 10

/-- `/api/air-quality` TTL: `cache.set(cacheKey, payload, 60 * 5)`. -/
def airQualityTTLsec : ℤ := 60 * 5

/-- `/api/climate` TTL: `cache.set(cacheKey, payload, 60 * 60 * 24)`. -/
def climateTTLsec : ℤ := 60 * 60 * 24

/-- `/api/marine` TTL: `cache.set(cacheKey, payload, 60 * 5)`. -/
def marineTTLsec : ℤ := 60 * 5

/-- Result of the Nominatim geocoding call in `/api/forecast`. -/
inductive GeoOutcome where
  | failed
  | noPlaces
  | found
deriving DecidableEq, Repr

/-- The per-request environment of `/api/forecast`: the `USE_MOCK` flag, the
geocoding outcome, the outcomes of the full and lightweight Open-Meteo
requests (`none` = failed after retries / non-ok), and the value the mock
generator would produce on this request. -/
structure ForecastEnv (α : Type) where
  useMock : Bool
  geocode : GeoOutcome
  fullResult : Option α
  lightResult : Option α
  mockData : α
deriving DecidableEq, Repr

/-- Observable `/api/forecast` response: HTTP status, the `cached` and
`mock` flags of the JSON body (a missing `mock` key reads as `false`), and
the forecast payload carried. -/
structure FcResp (α : Type) where
  status : ℕ
  cached : Bool
  mock : Bool
  payload : Option α
deriving DecidableEq, Repr

/-- The `/api/forecast` handler: empty-city 400; cache hit with
`cached: true`; forced mock (`USE_MOCK`) with no cache write; geocode
failure 500 / no places 404; full request, then lightweight fallback, each
cached on success with the default TTL; mock fallback with no cache write.
The cache key is `forecast:` + the lowercased city; the constant tag is
dropped here because the model keys this endpoint's cache separately. -/
def forecastHandler {α : Type} (env : ForecastEnv α)
    (c : List (String × CacheEntry α)) (now : ℤ) (city : String) :
    FcResp α × List (String × CacheEntry α) :=
  if city = "" then (⟨400, false, false, none⟩, c)
  else
    match cacheGet c now city.toLower with
    | some p => (⟨200, true, false, some p⟩, c)
    | none =>
      if env.useMock then (⟨200, false, true, some env.mockData⟩, c)
      else
        match env.geocode with
        | GeoOutcome.failed => (⟨500, false, false, none⟩, c)
        | GeoOutcome.noPlaces => (⟨404, false, false, none⟩, c)
        | GeoOutcome.found =>
          match env.fullResult with
          | some d => (⟨200, false, false, some d⟩, cacheSet c now city.toLower d forecastTTLsec)
          | none =>
            match env.lightResult with
            | some d => (⟨200, false, false, some d⟩, cacheSet c now city.toLower d forecastTTLsec)
            | none => (⟨200, false, true, some env.mockData⟩, c)

/-- C7: whenever `/api/forecast` synthesizes a mock forecast — the
`USE_MOCK` flag is set, or both the full and the lightweight upstream
requests failed after geocoding succeeded — the response has status 200
with `mock = true` and `cached = false`, the cache is left unchanged, and
an immediately repeated identical request again produces a freshly
generated mock (`mock = true`) instead of a cache hit. -/
theorem C7_mock_not_cached {α : Type} (env : ForecastEnv α)
    (c : List (String × CacheEntry α)) (now : ℤ) (city : String)
    (hcity : city ≠ "")
    (hmiss : cacheGet c now city.toLower = none)
    (hmock : env.useMock = true ∨
      (env.geocode = GeoOutcome.found ∧ env.fullResult = none ∧ env.lightResult = none)) :
    (forecastHandler env c now city).1.status = 200 ∧
    (forecastHandler env c now city).1.mock = true ∧
    (forecastHandler env c now city).1.cached = false ∧
    (forecastHandler env c now city).2 = c ∧
    (forecastHandler env (forecastHandler env c now city).2 now city).1.mock = true := by
  have hrun : forecastHandler env c now city = (⟨200, false, true, some env.mockData⟩, c) := by
    rcases hmock with h | ⟨hg, hf, hl⟩
    · simp [forecastHandler, if_neg hcity, hmiss, h]
    · cases hm : env.useMock with
      | true => simp [forecastHandler, if_neg hcity, hmiss, hm]
      | false => simp [forecastHandler, if_neg hcity, hmiss, hm, hg, hf, hl]
  refine ⟨by rw [hrun], by rw [hrun], by rw [hrun], by rw [hrun], ?_⟩
  rw [hrun]
  rw [hrun]

/-- Witness for C7: a concrete forced-mock request on an empty cache
returns 200 / `mock` / not `cached`, writes nothing, and repeats as mock. -/
theorem C7_mock_not_cached_w :
    ("x" : String) ≠ "" ∧
    cacheGet ([] : List (String × CacheEntry ℕ)) 0 ("x" : String).toLower = none ∧
    ((forecastHandler ⟨true, GeoOutcome.found, none, none, 7⟩
        ([] : List (String × CacheEntry ℕ)) 0 "x").1.status = 200 ∧
     (forecastHandler ⟨true, GeoOutcome.found, none, none, 7⟩
        ([] : List (String × CacheEntry ℕ)) 0 "x").1.mock = true ∧
     (forecastHandler ⟨true, GeoOutcome.found, none, none, 7⟩
        ([] : List (String × CacheEntry ℕ)) 0 "x").1.cached = false ∧
     (forecastHandler ⟨true, GeoOutcome.found, none, none, 7⟩
        ([] : List (String × CacheEntry ℕ)) 0 "x").2 = [] ∧
     (forecastHandler ⟨true, GeoOutcome.found, none, none, 7⟩
        (forecastHandler ⟨true, GeoOutcome.found, none, none, 7⟩
          ([] : List (String × CacheEntry ℕ)) 0 "x").2 0 "x").1.mock = true) := by
  refine ⟨by decide, rfl, ?_⟩
  exact C7_mock_not_cached ⟨true, GeoOutcome.found, none, none, 7⟩ [] 0 "x"
    (by decide) rfl (Or.inl rfl)

/-- A query-string parameter as the marine coordinate validation sees it:
missing (`undefined`), the empty string, a string `parseFloat` reads as a
number (including numeric-prefix strings), or a nonempty string `parseFloat`
cannot read (`NaN`). -/
inductive QueryParam where
  | missing
  | emptyStr
  | num (q : ℚ)
  | malformed
deriving DecidableEq, Repr

/-- JS truthiness of the raw parameter string: `undefined` and `''` are
falsy, every other string is truthy. -/
def truthy : QueryParam → Bool
  | QueryParam.missing => false
  | QueryParam.emptyStr => false
  | _ => true

/-- `a || b` on the raw parameter strings (`req.query.lat || req.query.latitude`). -/
def paramOr (a b : QueryParam) : QueryParam := if truthy a then a else b

/-- `parseFloat` on the chosen parameter; `none` models `NaN`
(`parseFloat(undefined)` and `parseFloat('')` are `NaN` too). -/
def parseFloatQ : QueryParam → Option ℚ
  | QueryParam.num q => some q
  | _ => none

/-- The parsed marine latitude: `parseFloat(req.query.lat || req.query.latitude)`;
`Number.isNaN` failure is `none`. -/
def marineCoord (p alt : QueryParam) : Option ℚ := parseFloatQ (paramOr p alt)

/-- The `/api/marine` response as observed by the claims: 400 for
missing/invalid coordinates, 500 when the upstream fetches failed, or a
200 JSON with the payload and the `cached` flag.  (The 504 timeout branch is
folded into the error constructor; no claim distinguishes them.) -/
inductive MarineResp where
  | badRequest
  | serverError
  | ok (latitude longitude : ℚ) (series15 : Option Series15) (cached : Bool)
deriving DecidableEq, Repr

/-- Cache key of `/api/marine`:
`marine:${lat}:${lon}:${forecastSteps}:${pastSteps}` (the model keys this
endpoint's cache separately, so the constant tag is dropped). -/
def MarineKey : Type := ℚ × ℚ × ℕ × ℕ
deriving instance DecidableEq for MarineKey

/-- The cached `/api/marine` payload (`latitude`, `longitude` and `series15`
of the response body; the echoed upstream `source` object is not modelled). -/
structure MarinePayload where
  latitude : ℚ
  longitude : ℚ
  series15 : Option Series15
deriving DecidableEq, Repr

/-- The `/api/marine` handler: parse and validate coordinates (400 when
either `parseFloat` result is NaN), read the cache (hit → `cached: true`),
otherwise fetch upstream (`none` = both the full and the safe hourly
parameter sets failed → error path), build `series15`, cache the payload
for `marineTTLsec`, and reply with `cached: false`. -/
def marineHandler (upstream : Option MarineUpstream)
    (latP latAltP lonP lonAltP : QueryParam) (fSteps pSteps : ℕ)
    (c : List (MarineKey × CacheEntry MarinePayload)) (now : ℤ) :
    MarineResp × List (MarineKey × CacheEntry MarinePayload) :=
  match marineCoord latP latAltP, marineCoord lonP lonAltP with
  | some lat, some lon =>
    let key : MarineKey := (lat, lon, fSteps, pSteps)
    (match cacheGet c now key with
     | some p => (MarineResp.ok p.latitude p.longitude p.series15 true, c)
     | none =>
       match upstream with
       | none => (MarineResp.serverError, c)
       | some j =>
         let payload : MarinePayload :=
           ⟨lat, lon, marineSeries15 lat lon j now pSteps fSteps⟩
         (MarineResp.ok payload.latitude payload.longitude payload.series15 false,
          cacheSet c now key payload marineTTLsec))
  | _, _ => (MarineResp.badRequest, c)

/-- C9: `/api/marine` accepts `lat = 0` and `lon = 0` as valid coordinates,
and returns 400 exactly when the effective `lat` or `lon` parameter is
missing or does not parse as a number (`parseFloat` yields `NaN`): the
validation distinguishes a missing coordinate from a zero coordinate. -/
theorem C9_coordinate_validation (upstream : Option MarineUpstream)
    (latP latAltP lonP lonAltP : QueryParam) (fS pS : ℕ)
    (c : List (MarineKey × CacheEntry MarinePayload)) (now : ℤ) :
    ((marineHandler upstream latP latAltP lonP lonAltP fS pS c now).1 = MarineResp.badRequest ↔
      (marineCoord latP latAltP = none ∨ marineCoord lonP lonAltP = none)) ∧
    marineCoord (QueryParam.num 0) QueryParam.missing = some 0 ∧
    (marineHandler upstream (QueryParam.num 0) QueryParam.missing
        (QueryParam.num 0) QueryParam.missing fS pS c now).1 ≠ MarineResp.badRequest ∧
    (∀ p alt : QueryParam, marineCoord p alt = none ↔
      (paramOr p alt = QueryParam.missing ∨ paramOr p alt = QueryParam.emptyStr ∨
       paramOr p alt = QueryParam.malformed)) := by
  have hbad : ∀ (up : Option MarineUpstream) (a b d e : QueryParam),
      ((marineHandler up a b d e fS pS c now).1 = MarineResp.badRequest ↔
        (marineCoord a b = none ∨ marineCoord d e = none)) := by
    intro up a b d e
    cases hlat : marineCoord a b with
    | none => simp [marineHandler, hlat]
    | some lat =>
      cases hlon : marineCoord d e with
      | none => simp [marineHandler, hlat, hlon]
      | some lon =>
        simp only [marineHandler, hlat, hlon]
        constructor
        · intro h
          exfalso
          cases hget : cacheGet c now ((lat, lon, fS, pS) : MarineKey) with
          | some p => simp [hget] at h
          | none =>
            cases hup : up with
            | none => simp [hget, hup] at h
            | some j => simp [hget, hup] at h
        · rintro (h | h) <;> exact absurd h (by simp)
  refine ⟨hbad upstream latP latAltP lonP lonAltP, rfl, ?_, ?_⟩
  · intro h
    have := (hbad upstream (QueryParam.num 0) QueryParam.missing
      (QueryParam.num 0) QueryParam.missing).mp h
    rcases this with h2 | h2 <;> exact absurd h2 (by simp [marineCoord, paramOr, truthy, parseFloatQ])
  · intro p alt
    cases hpa : paramOr p alt <;> simp [marineCoord, parseFloatQ, hpa]

/-- Observable response of the simpler cached endpoints
(`/api/air-quality`, `/api/climate`): success flag, `cached` flag, payload. -/
structure SimpleResp (α : Type) where
  ok : Bool
  cached : Bool
  payload : Option α
deriving DecidableEq, Repr

/-- The cache interaction of `/api/air-quality` (validation and payload
construction abstracted into `upstream`; the claim under verification
concerns only the hit/miss flags and the TTL): hit → `cached: true`;
miss → on upstream success cache for `60 * 5` seconds and reply
`cached: false`; upstream failure → error, no write. -/
def aqHandler {κ α : Type} [DecidableEq κ] (upstream : Option α) (key : κ)
    (c : List (κ × CacheEntry α)) (now : ℤ) :
    SimpleResp α × List (κ × CacheEntry α) :=
  match cacheGet c now key with
  | some p => (⟨true, true, some p⟩, c)
  | none =>
    match upstream with
    | some d => (⟨true, false, some d⟩, cacheSet c now key d airQualityTTLsec)
    | none => (⟨false, false, none⟩, c)

/-- The cache interaction of `/api/climate`, as for `aqHandler` but with the
`60 * 60 * 24` second TTL. -/
def climateHandler {κ α : Type} [DecidableEq κ] (upstream : Option α) (key : κ)
    (c : List (κ × CacheEntry α)) (now : ℤ) :
    SimpleResp α × List (κ × CacheEntry α) :=
  match cacheGet c now key with
  | some p => (⟨true, true, some p⟩, c)
  | none =>
    match upstream with
    | some d => (⟨true, false, some d⟩, cacheSet c now key d climateTTLsec)
    | none => (⟨false, false, none⟩, c)

/-- C8: per-endpoint TTLs are forecast 10 min, air-quality 5 min, climate
24 h, marine 5 min; a key written at `now` reads back exactly while
`t ≤ now + ttl` (so a populated key within the TTL window hits); a read
never returns an entry whose TTL has elapsed; and on every endpoint a cache
hit returns the stored payload with `cached = true` while the populating
miss returns `cached = false` and writes with that endpoint's TTL. -/
theorem C8_cache_ttl_flags :
    (forecastTTLsec = 10 * 60 ∧ airQualityTTLsec = 5 * 60 ∧
     climateTTLsec = 24 * 60 * 60 ∧ marineTTLsec = 5 * 60) ∧
    (∀ (κ α : Type) (inst : DecidableEq κ) (c : List (κ × CacheEntry α))
        (now t : ℤ) (k : κ) (v : α) (ttl : ℤ),
      @cacheGet κ α inst (@cacheSet κ α inst c now k v ttl) t k =
        if t ≤ now + ttl * 1000 then some v else none) ∧
    (∀ (κ α : Type) (inst : DecidableEq κ) (c : List (κ × CacheEntry α))
        (now : ℤ) (k : κ) (v : α),
      @cacheGet κ α inst c now k = some v →
      ∃ e : CacheEntry α, @cacheFind κ α inst c k = some e ∧ e.value = v ∧ now ≤ e.expiresAt) ∧
    (∀ (α : Type) (env : ForecastEnv α) (c : List (String × CacheEntry α))
        (now : ℤ) (city : String) (p : α),
      city ≠ "" → cacheGet c now city.toLower = some p →
      forecastHandler env c now city = (⟨200, true, false, some p⟩, c)) ∧
    (∀ (α : Type) (env : ForecastEnv α) (c : List (String × CacheEntry α))
        (now : ℤ) (city : String) (d : α),
      city ≠ "" → cacheGet c now city.toLower = none → env.useMock = false →
      env.geocode = GeoOutcome.found → env.fullResult = some d →
      forecastHandler env c now city =
        (⟨200, false, false, some d⟩, cacheSet c now city.toLower d forecastTTLsec)) ∧
    (∀ (upstream : Option MarineUpstream) (lat lon : ℚ) (fS pS : ℕ)
        (c : List (MarineKey × CacheEntry MarinePayload)) (now : ℤ) (p : MarinePayload),
      cacheGet c now ((lat, lon, fS, pS) : MarineKey) = some p →
      marineHandler upstream (QueryParam.num lat) QueryParam.missing
          (QueryParam.num lon) QueryParam.missing fS pS c now =
        (MarineResp.ok p.latitude p.longitude p.series15 true, c)) ∧
    (∀ (j : MarineUpstream) (lat lon : ℚ) (fS pS : ℕ)
        (c : List (MarineKey × CacheEntry MarinePayload)) (now : ℤ),
      cacheGet c now ((lat, lon, fS, pS) : MarineKey) = none →
      marineHandler (some j) (QueryParam.num lat) QueryParam.missing
          (QueryParam.num lon) QueryParam.missing fS pS c now =
        (MarineResp.ok lat lon (marineSeries15 lat lon j now pS fS) false,
         cacheSet c now ((lat, lon, fS, pS) : MarineKey)
           ⟨lat, lon, marineSeries15 lat lon j now pS fS⟩ marineTTLsec)) ∧
    (∀ (κ α : Type) (inst : DecidableEq κ) (upstream : Option α) (key : κ)
        (c : List (κ × CacheEntry α)) (now : ℤ) (p : α),
      @cacheGet κ α inst c now key = some p →
      @aqHandler κ α inst upstream key c now = (⟨true, true, some p⟩, c)) ∧
    (∀ (κ α : Type) (inst : DecidableEq κ) (d : α) (key : κ)
        (c : List (κ × CacheEntry α)) (now : ℤ),
      @cacheGet κ α inst c now key = none →
      @aqHandler κ α inst (some d) key c now =
        (⟨true, false, some d⟩, @cacheSet κ α inst c now key d airQualityTTLsec)) ∧
    (∀ (κ α : Type) (inst : DecidableEq κ) (upstream : Option α) (key : κ)
        (c : List (κ × CacheEntry α)) (now : ℤ) (p : α),
      @cacheGet κ α inst c now key = some p →
      @climateHandler κ α inst upstream key c now = (⟨true, true, some p⟩, c)) ∧
    (∀ (κ α : Type) (inst : DecidableEq κ) (d : α) (key : κ)
        (c : List (κ × CacheEntry α)) (now : ℤ),
      @cacheGet κ α inst c now key = none →
      @climateHandler κ α inst (some d) key c now =
        (⟨true, false, some d⟩, @cacheSet κ α inst c now key d climateTTLsec)) := by
  refine ⟨⟨rfl, rfl, rfl, rfl⟩, ?_, ?_, ?_, ?_, ?_, ?_, ?_, ?_, ?_, ?_⟩
  · intro κ α inst c now t k v ttl
    simp [cacheGet, cacheSet, cacheFind]
  · intro κ α inst c now k v h
    cases hfind : cacheFind c k with
    | none => rw [cacheGet, hfind] at h; exact absurd h (by simp)
    | some e =>
      rw [cacheGet, hfind] at h
      simp only at h
      by_cases hle : now ≤ e.expiresAt
      · rw [if_pos hle] at h
        injection h with h2
        exact ⟨e, rfl, h2, hle⟩
      · rw [if_neg hle] at h
        exact absurd h (by simp)
  · intro α env c now city p hcity hhit
    simp [forecastHandler, if_neg hcity, hhit]
  · intro α env c now city d hcity hmiss hm hg hf
    simp [forecastHandler, if_neg hcity, hmiss, hm, hg, hf]
  · intro upstream lat lon fS pS c now p hhit
    simp [marineHandler, marineCoord, paramOr, truthy, parseFloatQ, hhit]
  · intro j lat lon fS pS c now hmiss
    simp [marineHandler, marineCoord, paramOr, truthy, parseFloatQ, hmiss]
  · intro κ α inst upstream key c now p hhit
    simp [aqHandler, hhit]
  · intro κ α inst d key c now hmiss
    simp [aqHandler, hmiss]
  · intro κ α inst upstream key c now p hhit
    simp [climateHandler, hhit]
  · intro κ α inst d key c now hmiss
    simp [climateHandler, hmiss]

/-- Concrete forecast environment for the C8 witness: upstream full request
succeeds with payload `9`. -/
def c8env : ForecastEnv ℕ := ⟨false, GeoOutcome.found, some 9, none, 7⟩

/-- Concrete forecast cache holding `3` for the normalized key of city `x`,
expiring at `t = 600000`. -/
def c8fc : List (String × CacheEntry ℕ) := [(("x" : String).toLower, ⟨3, 600000⟩)]

/-- Concrete cached marine payload. -/
def c8mp : MarinePayload := ⟨2, 3, none⟩

/-- Concrete marine cache holding `c8mp` for key `(2, 3, 4, 5)`. -/
def c8mc : List (MarineKey × CacheEntry MarinePayload) := [((2, 3, 4, 5), ⟨c8mp, 1000⟩)]

/-- Concrete marine upstream body with no minutely block and no hourly data. -/
def c8j : MarineUpstream := ⟨none, []⟩

/-- Witness for C8: each hypothesis-bearing part of the theorem holds at a
concrete input — a live entry is read back unexpired; forecast, marine,
air-quality and climate each hit with `cached = true` on a populated key and
write back with their endpoint TTL on a miss with `cached = false`. -/
theorem C8_cache_ttl_flags_w :
    (cacheGet [((1 : ℕ), (⟨5, 1000⟩ : CacheEntry ℕ))] 500 1 = some 5 ∧
     ∃ e : CacheEntry ℕ, cacheFind [((1 : ℕ), (⟨5, 1000⟩ : CacheEntry ℕ))] 1 = some e ∧
       e.value = 5 ∧ (500 : ℤ) ≤ e.expiresAt) ∧
    (("x" : String) ≠ "" ∧ cacheGet c8fc 0 ("x" : String).toLower = some 3 ∧
     forecastHandler c8env c8fc 0 "x" = (⟨200, true, false, some 3⟩, c8fc)) ∧
    (cacheGet ([] : List (String × CacheEntry ℕ)) 0 ("x" : String).toLower = none ∧
     forecastHandler c8env [] 0 "x" =
       (⟨200, false, false, some 9⟩, cacheSet [] 0 ("x" : String).toLower 9 forecastTTLsec)) ∧
    (cacheGet c8mc 0 ((2, 3, 4, 5) : MarineKey) = some c8mp ∧
     marineHandler none (QueryParam.num 2) QueryParam.missing
         (QueryParam.num 3) QueryParam.missing 4 5 c8mc 0 =
       (MarineResp.ok c8mp.latitude c8mp.longitude c8mp.series15 true, c8mc)) ∧
    (cacheGet ([] : List (MarineKey × CacheEntry MarinePayload)) 0
        ((2, 3, 4, 5) : MarineKey) = none ∧
     marineHandler (some c8j) (QueryParam.num 2) QueryParam.missing
         (QueryParam.num 3) QueryParam.missing 4 5 [] 0 =
       (MarineResp.ok 2 3 (marineSeries15 2 3 c8j 0 5 4) false,
        cacheSet [] 0 ((2, 3, 4, 5) : MarineKey)
          ⟨2, 3, marineSeries15 2 3 c8j 0 5 4⟩ marineTTLsec)) ∧
    (cacheGet [((1 : ℕ), (⟨5, 1000⟩ : CacheEntry ℕ))] 500 1 = some 5 ∧
     aqHandler (some 9) 1 [((1 : ℕ), (⟨5, 1000⟩ : CacheEntry ℕ))] 500 =
       (⟨true, true, some 5⟩, [((1 : ℕ), (⟨5, 1000⟩ : CacheEntry ℕ))])) ∧
    (cacheGet ([] : List (ℕ × CacheEntry ℕ)) 0 1 = none ∧
     aqHandler (some 9) 1 ([] : List (ℕ × CacheEntry ℕ)) 0 =
       (⟨true, false, some 9⟩, cacheSet [] 0 1 9 airQualityTTLsec)) ∧
    (cacheGet [((1 : ℕ), (⟨5, 1000⟩ : CacheEntry ℕ))] 500 1 = some 5 ∧
     climateHandler (some 9) 1 [((1 : ℕ), (⟨5, 1000⟩ : CacheEntry ℕ))] 500 =
       (⟨true, true, some 5⟩, [((1 : ℕ), (⟨5, 1000⟩ : CacheEntry ℕ))])) ∧
    (cacheGet ([] : List (ℕ × CacheEntry ℕ)) 0 1 = none ∧
     climateHandler (some 9) 1 ([] : List (ℕ × CacheEntry ℕ)) 0 =
       (⟨true, false, some 9⟩, cacheSet [] 0 1 9 climateTTLsec)) := by
  refine ⟨⟨by decide, C8_cache_ttl_flags.2.2.1 ℕ ℕ _ _ 500 1 5 (by decide)⟩,
    ⟨by decide, by simp [cacheGet, cacheFind, c8fc],
      C8_cache_ttl_flags.2.2.2.1 ℕ c8env c8fc 0 "x" 3 (by decide)
        (by simp [cacheGet, cacheFind, c8fc])⟩,
    ⟨rfl, C8_cache_ttl_flags.2.2.2.2.1 ℕ c8env [] 0 "x" 9 (by decide) rfl rfl rfl rfl⟩,
    ⟨by decide, C8_cache_ttl_flags.2.2.2.2.2.1 none 2 3 4 5 c8mc 0 c8mp (by decide)⟩,
    ⟨by decide, C8_cache_ttl_flags.2.2.2.2.2.2.1 c8j 2 3 4 5 [] 0 (by decide)⟩,
    ⟨by decide, C8_cache_ttl_flags.2.2.2.2.2.2.2.1 ℕ ℕ _ (some 9) 1 _ 500 5 (by decide)⟩,
    ⟨by decide, C8_cache_ttl_flags.2.2.2.2.2.2.2.2.1 ℕ ℕ _ 9 1 [] 0 (by decide)⟩,
    ⟨by decide, C8_cache_ttl_flags.2.2.2.2.2.2.2.2.2.1 ℕ ℕ _ (some 9) 1 _ 500 5 (by decide)⟩,
    ⟨by decide, C8_cache_ttl_flags.2.2.2.2.2.2.2.2.2.2 ℕ ℕ _ 9 1 [] 0 (by decide)⟩⟩
